import Mathlib

/-!
Verification development for the Solar Dominion orbital-mechanics core.

This file gives a shallow embedding, over exact real arithmetic, of the
physics and simulation code in `src/constants.py`, `src/physics/orbital.py`,
`src/physics/transfer.py`, `src/physics/delta_v.py`,
`src/physics/gravity_assist.py` and the `GameState` / input-handler logic of
`src/main.py`, and proves or refutes the frozen specification claims about
that code.  Python floats are modelled as real numbers; fallible operations
(out-of-range tuple indexing) are modelled with `Option`; the two
angle-normalisation `while` loops of `calculate_optimal_transfer_window` are
modelled by their closed forms.
-/

namespace SolarDominion

open scoped Classical

noncomputable section

/-! ## Constants (`src/constants.py`) -/

/-- `AU = 100` : one astronomical unit in game units (`constants.py`, line 30). -/
def AU : ℝ := 100

/-- `G = 100` : scaled gravitational constant (`constants.py`, line 32). -/
def G : ℝ := 100

/-- `SUN_MASS = 1000` (`constants.py`, line 39). -/
def SUN_MASS : ℝ := 1000

/-! ## Orbital kinematics (`src/physics/orbital.py`) -/

/-- `calculate_orbital_position` (orbital.py, lines 15-33). -/
def calculate_orbital_position (semi_major_axis angle : ℝ) : ℝ × ℝ :=
  let radius := semi_major_axis * AU
  (radius * Real.cos angle, radius * Real.sin angle)

/-- `calculate_orbital_velocity` (orbital.py, lines 35-52):
`sqrt(G * mass_central / (semi_major_axis * AU))`. -/
def calculate_orbital_velocity (mass_central semi_major_axis : ℝ) : ℝ :=
  Real.sqrt (G * mass_central / (semi_major_axis * AU))

/-- `calculate_orbital_period` (orbital.py, lines 54-71). -/
def calculate_orbital_period (mass_central semi_major_axis : ℝ) : ℝ :=
  let radius := semi_major_axis * AU
  2 * Real.pi * Real.sqrt (radius ^ 3 / (G * mass_central))

/-- Result record of `calculate_orbital_elements_from_state_vectors`
(orbital.py, lines 149-154). -/
structure StateVectorElements where
  semi_major_axis : ℝ
  eccentricity : ℝ
  energy : ℝ
  angular_momentum : ℝ

/-- `calculate_orbital_elements_from_state_vectors` (orbital.py, lines 108-154).
The Python function receives 2-tuples `position` and `velocity` and evaluates
`velocity[2]` and `position[2]` (lines 127-129); indexing a 2-tuple at index 2
raises `IndexError`, modelled here by `List.get?` on the two-element list of
components inside the `Option` monad, in the source's evaluation order.
The code after those accesses is transcribed for completeness but is
unreachable for tuple inputs; in particular the `float('inf')`
semi-major-axis branch for `energy == 0` (line 138) collapses to the same
division formula, which is never reached. -/
def calculate_orbital_elements_from_state_vectors (position velocity : ℝ × ℝ)
    (central_mass : ℝ) : Option StateVectorElements :=
  let posL : List ℝ := [position.1, position.2]
  let velL : List ℝ := [velocity.1, velocity.2]
  do
    let p0 ← posL.get? 0
    let p1 ← posL.get? 1
    let v0 ← velL.get? 0
    let v1 ← velL.get? 1
    let r := Real.sqrt (p0 ^ 2 + p1 ^ 2)
    let v := Real.sqrt (v0 ^ 2 + v1 ^ 2)
    let v2 ← velL.get? 2
    let p2 ← posL.get? 2
    let h_x := p1 * v2 - p2 * v1
    let h_y := p2 * v0 - p0 * v2
    let h_z := p0 * v1 - p1 * v0
    let h := Real.sqrt (h_x ^ 2 + h_y ^ 2 + h_z ^ 2)
    let energy := 0.5 * v ^ 2 - G * central_mass / r
    let semi_major_axis := -(G * central_mass) / (2 * energy)
    let ecc_x := (v ^ 2 / (G * central_mass) - 1 / r) * p0 -
      (p0 * v0 + p1 * v1) / (G * central_mass) * v0
    let ecc_y := (v ^ 2 / (G * central_mass) - 1 / r) * p1 -
      (p0 * v0 + p1 * v1) / (G * central_mass) * v1
    let eccentricity := Real.sqrt (ecc_x ^ 2 + ecc_y ^ 2)
    pure ⟨semi_major_axis / AU, eccentricity, energy, h⟩

/-! ## Transfer solver (`src/physics/transfer.py`) -/

/-- Result record of `calculate_hohmann_transfer` (transfer.py, lines 57-63). -/
structure HohmannTransfer where
  delta_v1 : ℝ
  delta_v2 : ℝ
  total_delta_v : ℝ
  transfer_time : ℝ
  semi_major_axis : ℝ

/-- `calculate_hohmann_transfer` (transfer.py, lines 18-63). -/
def calculate_hohmann_transfer (r1 r2 central_mass : ℝ) : HohmannTransfer :=
  let r1_units := r1 * AU
  let r2_units := r2 * AU
  let a_transfer := (r1_units + r2_units) / 2
  let v1_circular := calculate_orbital_velocity central_mass r1
  let v2_circular := calculate_orbital_velocity central_mass r2
  let v1_transfer := Real.sqrt (G * central_mass * (2 / r1_units - 1 / a_transfer))
  let v2_transfer := Real.sqrt (G * central_mass * (2 / r2_units - 1 / a_transfer))
  let delta_v1 := |v1_transfer - v1_circular|
  let delta_v2 := |v2_circular - v2_transfer|
  let transfer_time := Real.pi * Real.sqrt (a_transfer ^ 3 / (G * central_mass))
  ⟨delta_v1, delta_v2, delta_v1 + delta_v2, transfer_time, a_transfer / AU⟩

/-- Result record of `calculate_bi_elliptic_transfer` (transfer.py, lines 107-117). -/
structure BiEllipticTransfer where
  delta_v1 : ℝ
  delta_v2 : ℝ
  delta_v3 : ℝ
  total_delta_v : ℝ
  transfer_time1 : ℝ
  transfer_time2 : ℝ
  total_transfer_time : ℝ
  semi_major_axis1 : ℝ
  semi_major_axis2 : ℝ

/-- `calculate_bi_elliptic_transfer` (transfer.py, lines 65-117). -/
def calculate_bi_elliptic_transfer (r1 r2 r_intermediate central_mass : ℝ) :
    BiEllipticTransfer :=
  let r1_units := r1 * AU
  let r2_units := r2 * AU
  let ri_units := r_intermediate * AU
  let v1_circular := calculate_orbital_velocity central_mass r1
  let v2_circular := calculate_orbital_velocity central_mass r2
  let a1_transfer := (r1_units + ri_units) / 2
  let a2_transfer := (r2_units + ri_units) / 2
  let v1_transfer := Real.sqrt (G * central_mass * (2 / r1_units - 1 / a1_transfer))
  let v_intermediate_1 := Real.sqrt (G * central_mass * (2 / ri_units - 1 / a1_transfer))
  let v_intermediate_2 := Real.sqrt (G * central_mass * (2 / ri_units - 1 / a2_transfer))
  let v2_transfer := Real.sqrt (G * central_mass * (2 / r2_units - 1 / a2_transfer))
  let delta_v1 := |v1_transfer - v1_circular|
  let delta_v2 := |v_intermediate_2 - v_intermediate_1|
  let delta_v3 := |v2_circular - v2_transfer|
  let transfer_time1 := Real.pi * Real.sqrt (a1_transfer ^ 3 / (G * central_mass))
  let transfer_time2 := Real.pi * Real.sqrt (a2_transfer ^ 3 / (G * central_mass))
  ⟨delta_v1, delta_v2, delta_v3, delta_v1 + delta_v2 + delta_v3,
    transfer_time1, transfer_time2, transfer_time1 + transfer_time2,
    a1_transfer / AU, a2_transfer / AU⟩

/-- `generate_hohmann_trajectory_points` (transfer.py, lines 119-184). -/
def generate_hohmann_trajectory_points (start_position : ℝ × ℝ)
    (start_velocity : ℝ × ℝ) (end_position : ℝ × ℝ) (central_mass : ℝ)
    (num_points : ℕ) : List (ℝ × ℝ) :=
  let r1 := Real.sqrt (start_position.1 ^ 2 + start_position.2 ^ 2)
  let r2 := Real.sqrt (end_position.1 ^ 2 + end_position.2 ^ 2)
  let a_transfer := (r1 + r2) / 2
  let periapsis := if r1 < r2 then r1 else r2
  let apoapsis := if r1 < r2 then r2 else r1
  let eccentricity := (apoapsis - periapsis) / (apoapsis + periapsis)
  let max_angle := Real.pi
  (List.range num_points).map fun i =>
    let true_anomaly :=
      if r1 < r2 then (i : ℝ) * max_angle / ((num_points : ℝ) - 1)
      else Real.pi + (i : ℝ) * max_angle / ((num_points : ℝ) - 1)
    let radius := a_transfer * (1 - eccentricity ^ 2) /
      (1 + eccentricity * Real.cos true_anomaly)
    (radius * Real.cos true_anomaly, radius * Real.sin true_anomaly)

/-- Orbit-parameter dictionary passed to `calculate_optimal_transfer_window`
(keys `"semi_major_axis"` and `"period"`). -/
structure OrbitParams where
  semi_major_axis : ℝ
  period : ℝ

/-- Python float modulo `t % p` for `p > 0`: `t - p * floor(t / p)`. -/
def pymod (t p : ℝ) : ℝ := t - p * (⌊t / p⌋ : ℝ)

/-- Closed form of the two normalisation loops
`while x < 0: x += 2*pi` / `while x >= 2*pi: x -= 2*pi`
(transfer.py, lines 258-261): the representative of `x` in `[0, 2*pi)`. -/
def wrap2pi (x : ℝ) : ℝ := x - 2 * Real.pi * (⌊x / (2 * Real.pi)⌋ : ℝ)

/-- Closed form of the single loop `while x < 0: x += 2*pi`
(transfer.py, lines 267-268): `x` itself when nonnegative, otherwise the
representative of `x` in `[0, 2*pi)`. -/
def wrapNonneg (x : ℝ) : ℝ := if x < 0 then wrap2pi x else x

/-- `calculate_optimal_transfer_window` (transfer.py, lines 207-276). -/
def calculate_optimal_transfer_window (origin_orbit destination_orbit : OrbitParams)
    (current_time : ℝ) : ℝ :=
  let origin_period := origin_orbit.period
  let destination_period := destination_orbit.period
  let origin_phase := pymod current_time origin_period / origin_period * (2 * Real.pi)
  let destination_phase :=
    pymod current_time destination_period / destination_period * (2 * Real.pi)
  let r1 := origin_orbit.semi_major_axis
  let r2 := destination_orbit.semi_major_axis
  let a_transfer := (r1 + r2) / 2
  let transfer_time := Real.pi * Real.sqrt (a_transfer ^ 3)
  let phase_needed :=
    if r2 > r1 then
      Real.pi - transfer_time / destination_period * (2 * Real.pi)
    else
      Real.pi + transfer_time / origin_period * (2 * Real.pi)
  let current_phase_diff := wrap2pi (destination_phase - origin_phase)
  let phase_diff_needed := wrapNonneg (phase_needed - current_phase_diff)
  let relative_angular_velocity :=
    2 * Real.pi * (1 / destination_period - 1 / origin_period)
  phase_diff_needed / relative_angular_velocity

/-! ## Delta-v / fuel model (`src/physics/delta_v.py`) -/

/-- The per-type exhaust-velocity table with default `5.0`
(delta_v.py, lines 30-35 and 66-71). -/
def exhaust_velocity (ship_type : String) : ℝ :=
  if ship_type = "SHUTTLE" then 5.0
  else if ship_type = "TRANSPORT" then 4.0
  else if ship_type = "MILITARY" then 6.0
  else if ship_type = "ADVANCED" then 8.0
  else 5.0

/-- `calculate_delta_v_budget` (delta_v.py, lines 16-51). -/
def calculate_delta_v_budget (ship_type : String) (fuel_percentage ship_mass : ℝ) : ℝ :=
  let ev := exhaust_velocity ship_type
  let dry_mass := ship_mass * 0.7
  let max_fuel_mass := ship_mass * 0.3
  let current_fuel_mass := max_fuel_mass * (fuel_percentage / 100.0)
  let current_total_mass := dry_mass + current_fuel_mass
  ev * Real.log (current_total_mass / dry_mass)

/-- `calculate_fuel_consumption` (delta_v.py, lines 53-91). -/
def calculate_fuel_consumption (delta_v : ℝ) (ship_type : String) (ship_mass : ℝ) : ℝ :=
  let ev := exhaust_velocity ship_type
  let dry_mass := ship_mass * 0.7
  let initial_mass := dry_mass * Real.exp (delta_v / ev)
  let fuel_mass_needed := initial_mass - dry_mass
  let max_fuel_mass := ship_mass * 0.3
  fuel_mass_needed / max_fuel_mass * 100

/-- One entry of `bi_elliptic_results` in `calculate_transfer_costs`
(delta_v.py, lines 159-165). -/
structure BiEllipticOption where
  intermediate_radius : ℝ
  total_delta_v : ℝ
  fuel_percentage : ℝ
  transfer_time : ℝ
  is_possible : Bool

/-- Python `min(list, key=...)` restricted to a key function: returns the
first element attaining the minimal key, `none` on the empty list. -/
def minByKey {α : Type} (key : α → ℝ) : List α → Option α
  | [] => none
  | x :: xs =>
    match minByKey key xs with
    | none => some x
    | some y => if key y < key x then some y else some x

/-- The `recommended_transfer` value of `calculate_transfer_costs`
(delta_v.py, lines 171-185). -/
inductive Recommended where
  | hohmann
  | biElliptic
  | impossible
deriving DecidableEq

/-- Result record of `calculate_transfer_costs` (delta_v.py, lines 187-197). -/
structure TransferCosts where
  hohmann_total_delta_v : ℝ
  hohmann_fuel : ℝ
  hohmann_time : ℝ
  hohmann_is_possible : Bool
  bi_elliptic_options : List BiEllipticOption
  optimal_bi_elliptic : Option BiEllipticOption
  recommended_transfer : Recommended

/-- `calculate_transfer_costs` (delta_v.py, lines 122-197). -/
def calculate_transfer_costs (origin_orbit destination_orbit central_mass : ℝ)
    (ship_type : String) (ship_mass : ℝ) : TransferCosts :=
  let hohmann := calculate_hohmann_transfer origin_orbit destination_orbit central_mass
  let hohmann_fuel := calculate_fuel_consumption hohmann.total_delta_v ship_type ship_mass
  let intermediate_points :=
    if origin_orbit < destination_orbit then
      [destination_orbit * 2, destination_orbit * 3, destination_orbit * 4,
        destination_orbit * 5]
    else
      [origin_orbit * 2, origin_orbit * 3, origin_orbit * 4, origin_orbit * 5]
  let bi_elliptic_results := intermediate_points.map fun r_intermediate =>
    let bi_elliptic :=
      calculate_bi_elliptic_transfer origin_orbit destination_orbit r_intermediate
        central_mass
    let bi_fuel := calculate_fuel_consumption bi_elliptic.total_delta_v ship_type ship_mass
    BiEllipticOption.mk r_intermediate bi_elliptic.total_delta_v bi_fuel
      bi_elliptic.total_transfer_time (decide (bi_fuel ≤ 100))
  let possible_bi_elliptic := bi_elliptic_results.filter fun b => b.is_possible
  let optimal_bi_elliptic := minByKey (fun b => b.fuel_percentage) possible_bi_elliptic
  let recommended :=
    if ¬hohmann_fuel ≤ 100 then
      match optimal_bi_elliptic with
      | some _ => Recommended.biElliptic
      | none => Recommended.impossible
    else
      match optimal_bi_elliptic with
      | some opt =>
        if opt.fuel_percentage < hohmann_fuel then Recommended.biElliptic
        else Recommended.hohmann
      | none => Recommended.hohmann
  ⟨hohmann.total_delta_v, hohmann_fuel, hohmann.transfer_time,
    decide (hohmann_fuel ≤ 100), bi_elliptic_results, optimal_bi_elliptic,
    recommended⟩

/-! ## Gravity assist (`src/physics/gravity_assist.py`) -/

/-- Euclidean magnitude of a 2D vector, `sqrt(vx**2 + vy**2)` as written
inline throughout the source. -/
def magnitude (v : ℝ × ℝ) : ℝ := Real.sqrt (v.1 ^ 2 + v.2 ^ 2)

/-- `math.atan2`, modelled by the complex argument (range `(-pi, pi]`). -/
def atan2 (y x : ℝ) : ℝ := Complex.arg ⟨x, y⟩

/-- `calculate_gravity_assist` (gravity_assist.py, lines 16-63). -/
def calculate_gravity_assist (approach_velocity planet_velocity : ℝ × ℝ)
    (planet_mass closest_approach : ℝ) : ℝ × ℝ :=
  let rel_vx := approach_velocity.1 - planet_velocity.1
  let rel_vy := approach_velocity.2 - planet_velocity.2
  let v_rel := Real.sqrt (rel_vx ^ 2 + rel_vy ^ 2)
  let impact_parameter :=
    closest_approach *
      Real.sqrt (1 + 2 * G * planet_mass / (closest_approach * v_rel ^ 2))
  let deflection_angle :=
    2 * Real.arcsin (1 / Real.sqrt (1 + (impact_parameter * v_rel ^ 2 / (G * planet_mass)) ^ 2))
  let rel_angle := atan2 rel_vy rel_vx
  let new_rel_angle := rel_angle + deflection_angle
  let new_rel_vx := v_rel * Real.cos new_rel_angle
  let new_rel_vy := v_rel * Real.sin new_rel_angle
  (new_rel_vx + planet_velocity.1, new_rel_vy + planet_velocity.2)

/-! ## Simulation state and stepper (`src/main.py`) -/

/-- The mission record attached to a ship by `execute_transfer`
(main.py, lines 1227-1235). -/
structure Mission where
  mtype : String
  target_body : String
  start_time : ℝ
  arrival_time : ℝ
  delta_v2 : ℝ
  target_orbit_radius : ℝ
  target_orbit_angle : ℝ

/-- A ship dictionary (main.py, lines 150-164). -/
structure Ship where
  name : String
  stype : String
  faction : String
  position : ℝ × ℝ
  velocity : ℝ × ℝ
  mass : ℝ
  fuel : ℝ
  crew : ℕ
  destination : Option String
  trajectory : Option (List (ℝ × ℝ))
  mission : Option Mission

/-- The fields of a celestial-body dictionary used by the per-ship part of
`GameState.update` (gravity summation). -/
structure BodyState where
  name : String
  mass : ℝ
  position : ℝ × ℝ

/-- Result record of `GameState.calculate_orbital_elements`
(main.py, lines 415-421). -/
structure OrbitalElements where
  semi_major_axis : ℝ
  eccentricity : ℝ
  energy : ℝ
  angular_momentum : ℝ
  period : Option ℝ

/-- `GameState.calculate_orbital_elements` (main.py, lines 387-421),
the 2D element computation used by station-keeping:
`h = x*vy - y*vx`, `ecc = sqrt(1 + 2*energy*h**2/(G*M_sun)**2)`. -/
def gamestate_calculate_orbital_elements (position velocity : ℝ × ℝ) : OrbitalElements :=
  let r := Real.sqrt (position.1 ^ 2 + position.2 ^ 2)
  let v := Real.sqrt (velocity.1 ^ 2 + velocity.2 ^ 2)
  let energy := 0.5 * v ^ 2 - G * SUN_MASS / r
  let h := position.1 * velocity.2 - position.2 * velocity.1
  let semi_major_axis := -(G * SUN_MASS) / (2 * energy)
  let eccentricity := Real.sqrt (1 + 2 * energy * h ^ 2 / (G * SUN_MASS) ^ 2)
  let period :=
    if eccentricity < 1 then
      some (2 * Real.pi * Real.sqrt (semi_major_axis ^ 3 / (G * SUN_MASS)))
    else none
  ⟨semi_major_axis / AU, eccentricity, energy, h, period⟩

/-- The station-keeping branch of `GameState.update` (main.py, lines 310-350):
entered when the ship has no (Hohmann) mission, no destination, no trajectory
and positive fuel; nudges the velocity toward the local circular velocity and
deducts `0.01` fuel clamped at zero. -/
def station_keeping_step (ship : Ship) : Ship :=
  if ship.destination = none ∧ ship.trajectory = none ∧ ship.fuel > 0 then
    let position := ship.position
    let velocity := ship.velocity
    let r := Real.sqrt (position.1 ^ 2 + position.2 ^ 2)
    let orbital_elements := gamestate_calculate_orbital_elements position velocity
    if orbital_elements.eccentricity > 0.01 then
      let angle := atan2 position.2 position.1
      let ideal_velocity := calculate_orbital_velocity SUN_MASS (r / AU)
      let ideal_vel_x := ideal_velocity * Real.cos (angle + Real.pi / 2)
      let ideal_vel_y := ideal_velocity * Real.sin (angle + Real.pi / 2)
      let correction_x := ideal_vel_x - velocity.1
      let correction_y := ideal_vel_y - velocity.2
      let correction_magnitude := Real.sqrt (correction_x ^ 2 + correction_y ^ 2)
      if correction_magnitude > 0.01 then
        let correction_factor := min 0.1 (correction_magnitude / 10)
        { ship with
          velocity := (velocity.1 + correction_x * correction_factor,
            velocity.2 + correction_y * correction_factor),
          fuel := max 0 (ship.fuel - 0.01) }
      else ship
    else ship
  else ship

/-- The mission-arrival branch of `GameState.update` (main.py, lines 260-308),
followed by the `elif` station-keeping branch (lines 310-350).  `time` is the
already-advanced simulation time `self.time`.  A pending Hohmann mission whose
arrival time has passed is executed only when the ship's radius is within 10%
of the target radius; the mission and trajectory are cleared in both the
fuel-sufficient and fuel-insufficient cases, and retained outside the radius
window.  A ship whose mission is absent (or not a `hohmann_transfer`) falls
through to station-keeping. -/
def mission_or_station_keeping (time : ℝ) (ship : Ship) : Ship :=
  match ship.mission with
  | some mission =>
    if mission.mtype = "hohmann_transfer" then
      if time ≥ mission.arrival_time then
        let target_radius := mission.target_orbit_radius
        let ship_pos := ship.position
        let ship_radius := Real.sqrt (ship_pos.1 ^ 2 + ship_pos.2 ^ 2)
        if |ship_radius - target_radius| / target_radius < 0.1 then
          let ship_angle := atan2 ship_pos.2 ship_pos.1
          let vel_angle := ship_angle + Real.pi / 2
          let delta_v := mission.delta_v2
          let fuel_required := calculate_fuel_consumption delta_v ship.stype ship.mass
          if fuel_required ≤ ship.fuel then
            let orbit_vel := calculate_orbital_velocity SUN_MASS (ship_radius / AU)
            { ship with
              fuel := ship.fuel - fuel_required,
              velocity := (orbit_vel * Real.cos vel_angle, orbit_vel * Real.sin vel_angle),
              mission := none,
              trajectory := none }
          else
            { ship with mission := none, trajectory := none }
        else ship
      else ship
    else station_keeping_step ship
  | none => station_keeping_step ship

/-- The gravity summation over all bodies for one ship
(main.py, lines 352-372): pairs closer than distance 1 are skipped. -/
def gravity_force (bodies : List BodyState) (ship_position : ℝ × ℝ) : ℝ × ℝ :=
  bodies.foldl
    (fun acc body =>
      let dx := body.position.1 - ship_position.1
      let dy := body.position.2 - ship_position.2
      let distance_sq := dx * dx + dy * dy
      if distance_sq < 1 then acc
      else
        let distance := Real.sqrt distance_sq
        let force_magnitude := G * body.mass / distance_sq
        (acc.1 + dx / distance * force_magnitude,
          acc.2 + dy / distance * force_magnitude))
    (0, 0)

/-- The whole per-ship body of the `GameState.update` tick
(main.py, lines 259-384): mission arrival / station-keeping, then gravity
integration of velocity and position by `game_dt`.  `time` is the simulation
time after the tick's advance (line 198). -/
def update_ship (time game_dt : ℝ) (bodies : List BodyState) (ship : Ship) : Ship :=
  let s1 := mission_or_station_keeping time ship
  let force := gravity_force bodies s1.position
  let new_velocity := (s1.velocity.1 + force.1 * game_dt, s1.velocity.2 + force.2 * game_dt)
  let new_position := (s1.position.1 + new_velocity.1 * game_dt,
    s1.position.2 + new_velocity.2 * game_dt)
  { s1 with velocity := new_velocity, position := new_position }

/-- The transfer record appended by `execute_transfer`
(main.py, lines 1206-1216). -/
structure TransferRecord where
  rtype : String
  ship_name : String
  start_orbit : ℝ
  end_orbit : ℝ
  start_angle : ℝ
  start_time : ℝ
  end_time : ℝ
  delta_v1 : ℝ
  delta_v2 : ℝ

/-- Outcome of `GameInputHandler.execute_transfer`: the ship after the
command, the transfer record appended to `game_state.transfers` (if any),
and whether the maneuver was executed.  An aborted command leaves the ship
untouched and appends nothing. -/
structure ExecResult where
  ship : Ship
  record : Option TransferRecord
  executed : Bool

/-- The fuel percentage `execute_transfer` computes for the first burn
(main.py, lines 1141-1153). -/
def first_burn_fuel_required (ship : Ship) (dest_position : ℝ × ℝ) : ℝ :=
  let ship_radius := Real.sqrt (ship.position.1 ^ 2 + ship.position.2 ^ 2)
  let dest_radius := Real.sqrt (dest_position.1 ^ 2 + dest_position.2 ^ 2)
  let transfer_data :=
    calculate_hohmann_transfer (ship_radius / AU) (dest_radius / AU) SUN_MASS
  calculate_fuel_consumption transfer_data.delta_v1 ship.stype ship.mass

/-- `GameInputHandler.execute_transfer` (main.py, lines 1122-1238) with the
origin ship and destination body selected.  Aborts with no state change when
the first burn's fuel exceeds the available fuel; otherwise consumes the
fuel, applies the prograde (outbound) or retrograde (inbound) first burn,
stores a display trajectory, appends a transfer record and attaches the
arrival mission. -/
def execute_transfer (ship : Ship) (dest_name : String) (dest_position : ℝ × ℝ)
    (time : ℝ) : ExecResult :=
  let ship_pos := ship.position
  let ship_vel := ship.velocity
  let ship_radius := Real.sqrt (ship_pos.1 ^ 2 + ship_pos.2 ^ 2)
  let dest_radius := Real.sqrt (dest_position.1 ^ 2 + dest_position.2 ^ 2)
  let ship_angle := atan2 ship_pos.2 ship_pos.1
  let transfer_data :=
    calculate_hohmann_transfer (ship_radius / AU) (dest_radius / AU) SUN_MASS
  let fuel_required :=
    calculate_fuel_consumption transfer_data.delta_v1 ship.stype ship.mass
  if fuel_required > ship.fuel then
    ⟨ship, none, false⟩
  else
    let vel_angle := ship_angle + Real.pi / 2
    let new_velocity :=
      if ship_radius < dest_radius then
        (ship_vel.1 + transfer_data.delta_v1 * Real.cos vel_angle,
          ship_vel.2 + transfer_data.delta_v1 * Real.sin vel_angle)
      else
        (ship_vel.1 - transfer_data.delta_v1 * Real.cos vel_angle,
          ship_vel.2 - transfer_data.delta_v1 * Real.sin vel_angle)
    let trajectory_points :=
      generate_hohmann_trajectory_points ship_pos new_velocity
        (dest_radius * Real.cos (ship_angle + Real.pi),
          dest_radius * Real.sin (ship_angle + Real.pi))
        SUN_MASS 50
    let transfer : TransferRecord :=
      ⟨"hohmann", ship.name, ship_radius, dest_radius, ship_angle, time,
        time + transfer_data.transfer_time, transfer_data.delta_v1,
        transfer_data.delta_v2⟩
    let mission : Mission :=
      ⟨"hohmann_transfer", dest_name, time, time + transfer_data.transfer_time,
        transfer_data.delta_v2, dest_radius, ship_angle + Real.pi⟩
    ⟨{ ship with
        fuel := ship.fuel - fuel_required,
        velocity := new_velocity,
        trajectory := some trajectory_points,
        mission := some mission },
      some transfer, true⟩

end

/-! ## Helper lemmas -/

/-- Every entry of the exhaust-velocity table, including the default,
is positive. -/
theorem exhaust_velocity_pos (ship_type : String) : 0 < exhaust_velocity ship_type := by
  unfold exhaust_velocity
  split_ifs <;> norm_num

/-- `calculate_fuel_consumption` is nonnegative for a nonnegative delta-v and
positive ship mass. -/
theorem fuel_consumption_nonneg (delta_v : ℝ) (ship_type : String) (ship_mass : ℝ)
    (hdv : 0 ≤ delta_v) (hm : 0 < ship_mass) :
    0 ≤ calculate_fuel_consumption delta_v ship_type ship_mass := by
  unfold calculate_fuel_consumption
  have hev : 0 < exhaust_velocity ship_type := exhaust_velocity_pos ship_type
  have hexp : 1 ≤ Real.exp (delta_v / exhaust_velocity ship_type) :=
    Real.one_le_exp (div_nonneg hdv hev.le)
  have hnum : 0 ≤ ship_mass * 0.7 * Real.exp (delta_v / exhaust_velocity ship_type) -
      ship_mass * 0.7 := by nlinarith
  have hden : 0 < ship_mass * 0.3 := by linarith
  positivity

/-- `minByKey` returns an element on any nonempty list. -/
theorem minByKey_isSome {α : Type} (key : α → ℝ) (l : List α) (hl : l ≠ []) :
    ∃ y, minByKey key l = some y := by
  cases l with
  | nil => exact absurd rfl hl
  | cons x xs =>
    unfold minByKey
    cases hxs : minByKey key xs with
    | none => exact ⟨x, rfl⟩
    | some z =>
      dsimp only
      by_cases hlt : key z < key x
      · exact ⟨z, by rw [if_pos hlt]⟩
      · exact ⟨x, by rw [if_neg hlt]⟩

/-- `minByKey` returns `none` only on the empty list. -/
theorem minByKey_eq_none {α : Type} (key : α → ℝ) (l : List α)
    (h : minByKey key l = none) : l = [] := by
  cases l with
  | nil => rfl
  | cons x xs =>
    exfalso
    obtain ⟨y, hy⟩ := minByKey_isSome key (x :: xs) (by simp)
    rw [hy] at h
    exact Option.noConfusion h

/-- An element returned by `minByKey` belongs to the list. -/
theorem minByKey_mem {α : Type} (key : α → ℝ) :
    ∀ (l : List α) (y : α), minByKey key l = some y → y ∈ l := by
  intro l
  induction l with
  | nil => intro y hy; simp [minByKey] at hy
  | cons x xs ih =>
    intro y hy
    unfold minByKey at hy
    cases hxs : minByKey key xs with
    | none =>
      rw [hxs] at hy
      dsimp only at hy
      cases hy
      exact List.mem_cons_self x xs
    | some z =>
      rw [hxs] at hy
      dsimp only at hy
      by_cases hlt : key z < key x
      · rw [if_pos hlt] at hy
        injection hy with hzy
        subst hzy
        exact List.mem_cons_of_mem x (ih z hxs)
      · rw [if_neg hlt] at hy
        cases hy
        exact List.mem_cons_self x xs

/-- The element returned by `minByKey` has the minimal key. -/
theorem minByKey_le {α : Type} (key : α → ℝ) :
    ∀ (l : List α) (y : α), minByKey key l = some y →
      ∀ x ∈ l, key y ≤ key x := by
  intro l
  induction l with
  | nil => intro y hy; simp [minByKey] at hy
  | cons a xs ih =>
    intro y hy x hx
    unfold minByKey at hy
    cases hxs : minByKey key xs with
    | none =>
      rw [hxs] at hy
      dsimp only at hy
      cases hy
      have hxs2 : xs = [] := minByKey_eq_none key xs hxs
      subst hxs2
      rcases List.mem_cons.mp hx with h | h
      · subst h; exact le_rfl
      · simp at h
    | some z =>
      rw [hxs] at hy
      dsimp only at hy
      by_cases hlt : key z < key a
      · rw [if_pos hlt] at hy
        injection hy with hzy
        subst hzy
        rcases List.mem_cons.mp hx with h | h
        · subst h; exact hlt.le
        · exact ih z hxs x h
      · rw [if_neg hlt] at hy
        injection hy with hay
        subst hay
        rcases List.mem_cons.mp hx with h | h
        · subst h; exact le_rfl
        · exact le_trans (not_lt.mp hlt) (ih z hxs x h)

/-! ## Claims -/

/-- C1: the claim asserts that `calculate_orbital_elements_from_state_vectors`
is defined for every 2D state vector (its embedding never takes an
error/out-of-bounds branch) and reports the 2D scalar cross product
`x*vy - y*vx` as angular momentum.  In fact the function evaluates
`velocity[2]` and `position[2]` (orbital.py, lines 127-129) on its 2-tuple
arguments, an out-of-bounds access, so its embedding returns `none` on every
input: the function never produces any orbital elements at all. -/
theorem c1_state_vector_elements_always_undefined
    (position velocity : ℝ × ℝ) (central_mass : ℝ) :
    calculate_orbital_elements_from_state_vectors position velocity central_mass = none := by
  rfl

/-- C5: `calculate_fuel_consumption` inverts `calculate_delta_v_budget`
exactly (over exact real arithmetic, hence within floating-point tolerance):
for every ship type, fuel percentage in `(0, 100]` and positive ship mass,
feeding the rocket-equation budget back through the consumption function
returns the original fuel percentage. -/
theorem c5_budget_consumption_inverse (ship_type : String) (f m : ℝ)
    (hf0 : 0 < f) (hf100 : f ≤ 100) (hm : 0 < m) :
    calculate_fuel_consumption (calculate_delta_v_budget ship_type f m) ship_type m = f := by
  have hev : 0 < exhaust_velocity ship_type := exhaust_velocity_pos ship_type
  simp only [calculate_fuel_consumption, calculate_delta_v_budget]
  have hdry : (0:ℝ) < m * 0.7 := by linarith
  have hratio : (0:ℝ) < (m * 0.7 + m * 0.3 * (f / 100.0)) / (m * 0.7) := by positivity
  rw [mul_div_cancel_left₀ _ hev.ne', Real.exp_log hratio]
  field_simp
  ring

/-- C6: `calculate_gravity_assist` preserves the relative speed: for every
approach velocity, planet velocity, planet mass, positive closest approach
and nonzero relative velocity, the magnitude of the returned velocity minus
the planet velocity equals the magnitude of the approach velocity minus the
planet velocity (exactly, over real arithmetic). -/
theorem c6_gravity_assist_preserves_relative_speed
    (approach_velocity planet_velocity : ℝ × ℝ) (planet_mass closest_approach : ℝ)
    (hca : 0 < closest_approach)
    (hrel : (approach_velocity.1 - planet_velocity.1,
      approach_velocity.2 - planet_velocity.2) ≠ ((0 : ℝ), (0 : ℝ))) :
    magnitude
      ((calculate_gravity_assist approach_velocity planet_velocity planet_mass
          closest_approach).1 - planet_velocity.1,
        (calculate_gravity_assist approach_velocity planet_velocity planet_mass
          closest_approach).2 - planet_velocity.2) =
      magnitude (approach_velocity.1 - planet_velocity.1,
        approach_velocity.2 - planet_velocity.2) := by
  simp only [calculate_gravity_assist, magnitude]
  set rvx := approach_velocity.1 - planet_velocity.1
  set rvy := approach_velocity.2 - planet_velocity.2
  set v_rel := Real.sqrt (rvx ^ 2 + rvy ^ 2)
  set θ := atan2 rvy rvx + 2 * Real.arcsin (1 / Real.sqrt (1 +
    (closest_approach * Real.sqrt (1 + 2 * G * planet_mass /
      (closest_approach * v_rel ^ 2)) * v_rel ^ 2 / (G * planet_mass)) ^ 2))
  have hsimp : v_rel * Real.cos θ + planet_velocity.1 - planet_velocity.1 = v_rel * Real.cos θ := by ring
  have hsimp2 : v_rel * Real.sin θ + planet_velocity.2 - planet_velocity.2 = v_rel * Real.sin θ := by ring
  rw [hsimp, hsimp2]
  have hsq : (v_rel * Real.cos θ) ^ 2 + (v_rel * Real.sin θ) ^ 2 = v_rel ^ 2 := by
    have h := Real.sin_sq_add_cos_sq θ
    nlinarith [h]
  rw [hsq]
  exact Real.sqrt_sq (Real.sqrt_nonneg _)

/-- C10: with the intermediate radius equal to the destination radius, the
bi-elliptic solver degenerates exactly to the Hohmann solver: for all
distinct positive radii and positive central mass,
`calculate_bi_elliptic_transfer r1 r2 r2 M` has the same `total_delta_v` as
`calculate_hohmann_transfer r1 r2 M` (its third burn is zero). -/
theorem c10_bi_elliptic_degenerates_to_hohmann (r1 r2 M : ℝ)
    (h1 : 0 < r1) (h2 : 0 < r2) (hne : r1 ≠ r2) (hM : 0 < M) :
    (calculate_bi_elliptic_transfer r1 r2 r2 M).total_delta_v =
      (calculate_hohmann_transfer r1 r2 M).total_delta_v := by
  simp only [calculate_bi_elliptic_transfer, calculate_hohmann_transfer,
    calculate_orbital_velocity]
  have hr2 : r2 * AU ≠ 0 := by
    have : (0:ℝ) < AU := by norm_num [AU]
    positivity
  have key : G * M * (2 / (r2 * AU) - 1 / ((r2 * AU + r2 * AU) / 2)) =
      G * M / (r2 * AU) := by
    field_simp
    ring
  rw [key, sub_self, abs_zero, add_zero]

/-- Witness for C5 at ship type `"SHUTTLE"`, fuel percentage `50`, mass `5`. -/
theorem c5_budget_consumption_inverse_witness :
    calculate_fuel_consumption (calculate_delta_v_budget "SHUTTLE" 50 5) "SHUTTLE" 5 = 50 :=
  c5_budget_consumption_inverse "SHUTTLE" 50 5 (by norm_num) (by norm_num) (by norm_num)

/-- Witness for C6 at approach velocity `(1, 0)`, planet velocity `(0, 0)`,
planet mass `1`, closest approach `2`. -/
theorem c6_gravity_assist_witness :
    magnitude ((calculate_gravity_assist (1, 0) (0, 0) 1 2).1 - (0 : ℝ × ℝ).1,
        (calculate_gravity_assist (1, 0) (0, 0) 1 2).2 - (0 : ℝ × ℝ).2) =
      magnitude (((1 : ℝ), (0 : ℝ)).1 - (0 : ℝ × ℝ).1,
        ((1 : ℝ), (0 : ℝ)).2 - (0 : ℝ × ℝ).2) :=
  c6_gravity_assist_preserves_relative_speed (1, 0) (0, 0) 1 2 (by norm_num)
    (by simp)

/-- Witness for C10 at `r1 = 1`, `r2 = 2`, `M = 1000`. -/
theorem c10_bi_elliptic_degenerates_witness :
    (calculate_bi_elliptic_transfer 1 2 2 1000).total_delta_v =
      (calculate_hohmann_transfer 1 2 1000).total_delta_v :=
  c10_bi_elliptic_degenerates_to_hohmann 1 2 1000 (by norm_num) (by norm_num)
    (by norm_num) (by norm_num)

/-- C2 counterexample: the claim says the Earth-to-Mars Hohmann transfer
time under the scaled constants is approximately 259 days; in fact
`calculate_hohmann_transfer 1 1.524 1000` yields a `transfer_time` below 15
days (the value is about 14.085), more than 200 days away from 259. -/
theorem c2_transfer_time_not_259 :
    200 < |(calculate_hohmann_transfer 1 1.524 1000).transfer_time - 259| := by
  have ht : (calculate_hohmann_transfer 1 1.524 1000).transfer_time =
      Real.pi * Real.sqrt 20.09916728 := by
    simp only [calculate_hohmann_transfer, calculate_orbital_velocity, G, AU]
    norm_num
  have hs : Real.sqrt 20.09916728 < 4.4834 :=
    (Real.sqrt_lt' (by norm_num)).2 (by norm_num)
  have hs0 : 0 ≤ Real.sqrt 20.09916728 := Real.sqrt_nonneg _
  have hπ1 : (3.1415 : ℝ) < Real.pi := Real.pi_gt_d4
  have hπ2 : Real.pi < 3.1416 := Real.pi_lt_d4
  have hlt : (calculate_hohmann_transfer 1 1.524 1000).transfer_time < 15 := by
    rw [ht]
    nlinarith
  have hge : 0 ≤ (calculate_hohmann_transfer 1 1.524 1000).transfer_time := by
    rw [ht]
    positivity
  rw [abs_of_neg (by linarith)]
  linarith

/-- C2 amended: `calculate_hohmann_transfer 1 1.524 1000` (Earth to Mars
under the scaled constants `G = 100`, `AU = 100`, central mass `1000`)
returns a `transfer_time` of approximately 14.08 days — under these
constants a full 1 AU circular orbit takes about 19.87 days, so the
half-ellipse transfer lasts about 14.08 days, not 259 — and a
`total_delta_v` that is positive and strictly less than the sum of the
circular-orbit velocities at 1.0 AU and 1.524 AU. -/
theorem c2_hohmann_earth_mars_amended :
    14.08 < (calculate_hohmann_transfer 1 1.524 1000).transfer_time ∧
    (calculate_hohmann_transfer 1 1.524 1000).transfer_time < 14.09 ∧
    0 < (calculate_hohmann_transfer 1 1.524 1000).total_delta_v ∧
    (calculate_hohmann_transfer 1 1.524 1000).total_delta_v <
      calculate_orbital_velocity 1000 1 + calculate_orbital_velocity 1000 1.524 := by
  have ht : (calculate_hohmann_transfer 1 1.524 1000).transfer_time =
      Real.pi * Real.sqrt 20.09916728 := by
    simp only [calculate_hohmann_transfer, calculate_orbital_velocity, G, AU]
    norm_num
  have e1 : calculate_orbital_velocity 1000 1 = Real.sqrt 1000 := by
    simp only [calculate_orbital_velocity, G, AU]
    norm_num
  have e2 : calculate_orbital_velocity 1000 1.524 = Real.sqrt (250000 / 381) := by
    simp only [calculate_orbital_velocity, G, AU]
    norm_num
  have etot : (calculate_hohmann_transfer 1 1.524 1000).total_delta_v =
      |Real.sqrt (762000 / 631) - Real.sqrt 1000| +
        |Real.sqrt (250000 / 381) - Real.sqrt (125000000 / 240411)| := by
    simp only [calculate_hohmann_transfer, calculate_orbital_velocity, G, AU]
    norm_num
  have hπ1 : (3.1415 : ℝ) < Real.pi := Real.pi_gt_d4
  have hπ2 : Real.pi < 3.1416 := Real.pi_lt_d4
  have hs1 : (4.4831 : ℝ) < Real.sqrt 20.09916728 :=
    (Real.lt_sqrt (by norm_num)).2 (by norm_num)
  have hs2 : Real.sqrt 20.09916728 < 4.4834 :=
    (Real.sqrt_lt' (by norm_num)).2 (by norm_num)
  have h1c : Real.sqrt 1000 < Real.sqrt (762000 / 631) :=
    Real.sqrt_lt_sqrt (by norm_num) (by norm_num)
  have h2c : Real.sqrt (125000000 / 240411) < Real.sqrt (250000 / 381) :=
    Real.sqrt_lt_sqrt (by norm_num) (by norm_num)
  have b1 : Real.sqrt (762000 / 631) < 34.76 :=
    (Real.sqrt_lt' (by norm_num)).2 (by norm_num)
  have b2 : (31.62 : ℝ) < Real.sqrt 1000 :=
    (Real.lt_sqrt (by norm_num)).2 (by norm_num)
  have b3 : Real.sqrt (250000 / 381) < 25.62 :=
    (Real.sqrt_lt' (by norm_num)).2 (by norm_num)
  have b4 : (22.80 : ℝ) < Real.sqrt (125000000 / 240411) :=
    (Real.lt_sqrt (by norm_num)).2 (by norm_num)
  have b5 : (25.61 : ℝ) < Real.sqrt (250000 / 381) :=
    (Real.lt_sqrt (by norm_num)).2 (by norm_num)
  refine ⟨?_, ?_, ?_, ?_⟩
  · rw [ht]; nlinarith
  · rw [ht]; nlinarith
  · rw [etot, abs_of_pos (by linarith), abs_of_pos (by linarith)]
    linarith
  · rw [etot, e1, e2, abs_of_pos (by linarith), abs_of_pos (by linarith)]
    linarith

/-- C9: the claim says `calculate_optimal_transfer_window` returns a
nonnegative number of days below the synodic period for every pair of
orbits with distinct positive periods.  The code divides the required phase
difference (normalised into `[0, 2*pi)`, hence nonnegative) by the *signed*
relative angular velocity `2*pi*(1/destination_period - 1/origin_period)`,
which is negative whenever the destination orbit is slower; for the
Earth-to-Mars configuration (origin semi-major axis 1 AU, period 365.25
days; destination 1.524 AU, period 687 days) at time 0 the function
returns a negative number of days (about -385), contradicting both the
claim and the function's own docstring ("Time in days until the next
optimal transfer window"). -/
theorem c9_transfer_window_negative_for_earth_mars :
    calculate_optimal_transfer_window ⟨1, 365.25⟩ ⟨1.524, 687⟩ 0 < 0 := by
  have hπ2 : Real.pi < 3.1416 := Real.pi_lt_d4
  simp only [calculate_optimal_transfer_window, pymod, wrap2pi, wrapNonneg]
  norm_num [Int.floor_zero]
  set q := Real.sqrt 251239591 / Real.sqrt 125000000 with hqdef
  have hq1 : Real.sqrt 251239591 < 15851 :=
    (Real.sqrt_lt' (by norm_num)).2 (by norm_num)
  have hq2 : (11180 : ℝ) < Real.sqrt 125000000 :=
    (Real.lt_sqrt (by norm_num)).2 (by norm_num)
  have hq0 : 0 ≤ q := by positivity
  have hq : q < 1.42 := by
    rw [hqdef]
    calc Real.sqrt 251239591 / Real.sqrt 125000000 < 15851 / 11180 :=
          div_lt_div₀ hq1 hq2.le (by norm_num) (by norm_num)
      _ < 1.42 := by norm_num
  have hπ0 : (0 : ℝ) < Real.pi := Real.pi_pos
  have hπ3 : (3 : ℝ) < Real.pi := Real.pi_gt_three
  have hu0 : 0 ≤ Real.pi * q := mul_nonneg hπ0.le hq0
  have hu : Real.pi * q < 4.47 := by
    nlinarith [mul_nonneg (sub_nonneg.mpr hπ2.le) hq0]
  have hv : Real.pi * q * Real.pi < 14.05 := by
    nlinarith [mul_le_mul_of_nonneg_left hπ2.le hu0]
  have hA : Real.pi * q / 687 * (2 * Real.pi) < 0.05 := by
    have hre : Real.pi * q / 687 * (2 * Real.pi) = Real.pi * q * Real.pi * 2 / 687 := by
      ring
    rw [hre]
    linarith
  have hcond : ¬Real.pi < Real.pi * q / 687 * (2 * Real.pi) := by
    intro hcontra
    linarith
  rw [if_neg hcond]
  apply div_neg_of_pos_of_neg
  · linarith
  · have hpos : (0 : ℝ) < 2 * Real.pi * (143 / 111523) := by positivity
    linarith

/-- Soundness of the option selection made by `calculate_transfer_costs`:
(a) the result is "impossible" exactly when the Hohmann cost and every
sampled bi-elliptic cost exceed 100% fuel; (b) whenever some evaluated
option (Hohmann or one of the four sampled bi-elliptic candidates) costs at
most 100% fuel, the recommendation is not "impossible" and the recommended
option itself costs at most 100%; (c) when both kinds are feasible, the
optimal bi-elliptic candidate exists, is fuel-minimal among the feasible
candidates, and Hohmann is recommended unless that candidate's fuel
percentage is strictly lower. -/
def transfer_costs_selection_sound (c : TransferCosts) : Prop :=
  (c.recommended_transfer = Recommended.impossible ↔
    (¬c.hohmann_fuel ≤ 100 ∧
      ∀ b ∈ c.bi_elliptic_options, ¬b.fuel_percentage ≤ 100)) ∧
  ((c.hohmann_fuel ≤ 100 ∨ ∃ b ∈ c.bi_elliptic_options, b.fuel_percentage ≤ 100) →
    c.recommended_transfer ≠ Recommended.impossible ∧
    (c.recommended_transfer = Recommended.hohmann → c.hohmann_fuel ≤ 100) ∧
    (c.recommended_transfer = Recommended.biElliptic →
      ∃ b, c.optimal_bi_elliptic = some b ∧ b.fuel_percentage ≤ 100)) ∧
  ((c.hohmann_fuel ≤ 100 ∧ ∃ b ∈ c.bi_elliptic_options, b.fuel_percentage ≤ 100) →
    ∃ b, c.optimal_bi_elliptic = some b ∧
      (∀ x ∈ c.bi_elliptic_options, x.fuel_percentage ≤ 100 →
        b.fuel_percentage ≤ x.fuel_percentage) ∧
      c.recommended_transfer =
        (if b.fuel_percentage < c.hohmann_fuel then Recommended.biElliptic
          else Recommended.hohmann))

/-- C4: for every pair of distinct positive orbit radii, positive central
mass, ship type and positive ship mass, the selection logic of
`calculate_transfer_costs` is sound in the sense of
`transfer_costs_selection_sound`: it never recommends an option above 100%
fuel while an evaluated option at or below 100% exists, returns
"impossible" exactly when Hohmann and all four sampled bi-elliptic
candidates exceed 100%, and, when both kinds are feasible, recommends
Hohmann unless the best bi-elliptic fuel percentage is strictly lower. -/
theorem c4_transfer_costs_selection (r1 r2 M : ℝ) (ship_type : String) (m : ℝ)
    (h1 : 0 < r1) (h2 : 0 < r2) (hne : r1 ≠ r2) (hM : 0 < M) (hm : 0 < m) :
    transfer_costs_selection_sound (calculate_transfer_costs r1 r2 M ship_type m) := by
  set c := calculate_transfer_costs r1 r2 M ship_type m with hc
  have hflag : ∀ b ∈ c.bi_elliptic_options,
      b.is_possible = decide (b.fuel_percentage ≤ 100) := by
    intro b hb
    rw [hc] at hb
    simp only [calculate_transfer_costs, List.mem_map] at hb
    obtain ⟨ri, hri, rfl⟩ := hb
    rfl
  have hopt : c.optimal_bi_elliptic =
      minByKey (fun b => b.fuel_percentage)
        (c.bi_elliptic_options.filter fun b => b.is_possible) := rfl
  have hrec : c.recommended_transfer =
      (if ¬c.hohmann_fuel ≤ 100 then
        match c.optimal_bi_elliptic with
        | some _ => Recommended.biElliptic
        | none => Recommended.impossible
      else
        match c.optimal_bi_elliptic with
        | some opt =>
          if opt.fuel_percentage < c.hohmann_fuel then Recommended.biElliptic
          else Recommended.hohmann
        | none => Recommended.hohmann) := rfl
  have hmemP : ∀ b, b ∈ (c.bi_elliptic_options.filter fun b => b.is_possible) ↔
      (b ∈ c.bi_elliptic_options ∧ b.fuel_percentage ≤ 100) := by
    intro b
    rw [List.mem_filter]
    constructor
    · rintro ⟨hb, hposs⟩
      refine ⟨hb, ?_⟩
      rw [hflag b hb] at hposs
      exact of_decide_eq_true hposs
    · rintro ⟨hb, hfuel⟩
      exact ⟨hb, by rw [hflag b hb]; exact decide_eq_true hfuel⟩
  constructor
  · -- (a)
    rw [hrec]
    by_cases hhf : c.hohmann_fuel ≤ 100
    · rw [if_neg (by simpa using hhf)]
      cases hoptv : c.optimal_bi_elliptic with
      | some b =>
        constructor
        · intro hcontra
          by_cases hlt : b.fuel_percentage < c.hohmann_fuel <;>
            simp [hlt] at hcontra
        · rintro ⟨hcon, -⟩
          exact absurd hhf hcon
      | none =>
        constructor
        · intro hcontra
          exact Recommended.noConfusion hcontra
        · rintro ⟨hcon, -⟩
          exact absurd hhf hcon
    · rw [if_pos (by simpa using hhf)]
      cases hoptv : c.optimal_bi_elliptic with
      | some b =>
        constructor
        · intro hcontra
          exact Recommended.noConfusion hcontra
        · rintro ⟨-, hall⟩
          have hbP : b ∈ c.bi_elliptic_options.filter fun b => b.is_possible :=
            minByKey_mem _ _ b (hopt ▸ hoptv)
          obtain ⟨hbmem, hbfuel⟩ := (hmemP b).mp hbP
          exact absurd hbfuel (hall b hbmem)
      | none =>
        refine ⟨fun _ => ⟨hhf, ?_⟩, fun _ => rfl⟩
        intro b hbmem hbfuel
        have hP : c.bi_elliptic_options.filter (fun b => b.is_possible) = [] :=
          minByKey_eq_none _ _ (hopt ▸ hoptv)
        have : b ∈ c.bi_elliptic_options.filter fun b => b.is_possible :=
          (hmemP b).mpr ⟨hbmem, hbfuel⟩
        rw [hP] at this
        simp at this
  constructor
  · -- (b)
    intro hfeas
    rw [hrec]
    by_cases hhf : c.hohmann_fuel ≤ 100
    · rw [if_neg (by simpa using hhf)]
      cases hoptv : c.optimal_bi_elliptic with
      | some b =>
        refine ⟨?_, fun _ => hhf, fun _ => ⟨b, rfl, ?_⟩⟩
        · by_cases hlt : b.fuel_percentage < c.hohmann_fuel <;>
            simp [hlt]
        · exact ((hmemP b).mp (minByKey_mem _ _ b (hopt ▸ hoptv))).2
      | none =>
        exact ⟨fun hcontra => Recommended.noConfusion hcontra, fun _ => hhf,
          fun hcontra => Recommended.noConfusion hcontra⟩
    · rw [if_pos (by simpa using hhf)]
      cases hoptv : c.optimal_bi_elliptic with
      | some b =>
        refine ⟨fun hcontra => Recommended.noConfusion hcontra,
          fun hcontra => by simp at hcontra, fun _ => ⟨b, rfl, ?_⟩⟩
        exact ((hmemP b).mp (minByKey_mem _ _ b (hopt ▸ hoptv))).2
      | none =>
        exfalso
        rcases hfeas with hhf2 | ⟨b, hbmem, hbfuel⟩
        · exact hhf hhf2
        · have hP : c.bi_elliptic_options.filter (fun b => b.is_possible) = [] :=
            minByKey_eq_none _ _ (hopt ▸ hoptv)
          have : b ∈ c.bi_elliptic_options.filter fun b => b.is_possible :=
            (hmemP b).mpr ⟨hbmem, hbfuel⟩
          rw [hP] at this
          simp at this
  · -- (c)
    rintro ⟨hhf, b0, hb0mem, hb0fuel⟩
    have hP0 : b0 ∈ c.bi_elliptic_options.filter fun b => b.is_possible :=
      (hmemP b0).mpr ⟨hb0mem, hb0fuel⟩
    obtain ⟨b, hb⟩ := minByKey_isSome (fun b => b.fuel_percentage)
      (c.bi_elliptic_options.filter fun b => b.is_possible)
      (by intro hnil; rw [hnil] at hP0; simp at hP0)
    refine ⟨b, hopt.trans hb, ?_, ?_⟩
    · intro x hxmem hxfuel
      exact minByKey_le _ _ b hb x ((hmemP x).mpr ⟨hxmem, hxfuel⟩)
    · rw [hrec, if_neg (by simpa using hhf), hopt.trans hb]

/-- Witness for C4 at `r1 = 1`, `r2 = 2`, `M = 1000`, ship type
`"SHUTTLE"`, ship mass `5`. -/
theorem c4_transfer_costs_selection_witness :
    transfer_costs_selection_sound (calculate_transfer_costs 1 2 1000 "SHUTTLE" 5) :=
  c4_transfer_costs_selection 1 2 1000 "SHUTTLE" 5 (by norm_num) (by norm_num)
    (by norm_num) (by norm_num) (by norm_num)

/-- C3 counterexample: the claim says a pending `hohmann_transfer` mission
whose arrival time has passed is cleared by the tick even when the ship's
radial distance is outside the 10% window around the target radius.  In the
code (main.py, lines 272-308) the mission-clearing statements sit inside the
`if abs(ship_radius - target_radius) / target_radius < 0.1` block, so a ship
at radius 200 with target radius 100 (ratio 1, far outside the window) and
arrival time 0 at simulation time 1 still carries its mission after the
tick. -/
theorem c3_mission_retained_outside_window :
    (1 : ℝ) ≥ (Mission.mk "hohmann_transfer" "MARS" 0 0 1 100 0).arrival_time ∧
    (update_ship 1 1 []
      (Ship.mk "UNSS Explorer" "SHUTTLE" "EARTH" (200, 0) (0, 0) 5 50 5 none none
        (some (Mission.mk "hohmann_transfer" "MARS" 0 0 1 100 0)))).mission ≠
      none := by
  constructor
  · norm_num
  · have h200 : Real.sqrt (((200 : ℝ), (0 : ℝ)).1 ^ 2 + ((200 : ℝ), (0 : ℝ)).2 ^ 2) =
        200 := by
      rw [show (((200 : ℝ), (0 : ℝ)).1 ^ 2 + ((200 : ℝ), (0 : ℝ)).2 ^ 2) =
        (200 : ℝ) ^ 2 by norm_num, Real.sqrt_sq (by norm_num)]
    simp only [update_ship, mission_or_station_keeping, h200]
    norm_num
    exact Option.some_ne_none _

/-- C3 amended: a pending `hohmann_transfer` mission whose scheduled arrival
time is at or before the current (post-advance) simulation time is cleared
by the tick — regardless of whether the arrival burn succeeded or the fuel
was insufficient — provided additionally that the ship's radial distance is
within the 10% window around the target radius; a ship outside the window
retains its mission and the arrival is retried on later ticks. -/
theorem c3_mission_cleared_inside_window (time game_dt : ℝ) (bodies : List BodyState)
    (ship : Ship) (m : Mission) (hm : ship.mission = some m)
    (htype : m.mtype = "hohmann_transfer")
    (htime : time ≥ m.arrival_time)
    (hwin : |Real.sqrt (ship.position.1 ^ 2 + ship.position.2 ^ 2) -
        m.target_orbit_radius| / m.target_orbit_radius < 0.1) :
    (update_ship time game_dt bodies ship).mission = none := by
  simp only [update_ship, mission_or_station_keeping, hm]
  rw [if_pos htype, if_pos htime, if_pos hwin]
  split_ifs <;> rfl

/-- Witness for the amended C3 at a ship sitting exactly on the target
radius with arrival time 0 at simulation time 1. -/
theorem c3_mission_cleared_inside_window_witness :
    (update_ship 1 1 []
      (Ship.mk "UNSS Explorer" "SHUTTLE" "EARTH" (100, 0) (0, 0) 5 50 5 none none
        (some (Mission.mk "hohmann_transfer" "MARS" 0 0 1 100 0)))).mission =
      none := by
  apply c3_mission_cleared_inside_window 1 1 []
    (Ship.mk "UNSS Explorer" "SHUTTLE" "EARTH" (100, 0) (0, 0) 5 50 5 none none
      (some (Mission.mk "hohmann_transfer" "MARS" 0 0 1 100 0)))
    (Mission.mk "hohmann_transfer" "MARS" 0 0 1 100 0) rfl rfl (by norm_num)
  have h100 : Real.sqrt (((100 : ℝ), (0 : ℝ)).1 ^ 2 + ((100 : ℝ), (0 : ℝ)).2 ^ 2) =
      100 := by
    rw [show (((100 : ℝ), (0 : ℝ)).1 ^ 2 + ((100 : ℝ), (0 : ℝ)).2 ^ 2) =
      (100 : ℝ) ^ 2 by norm_num, Real.sqrt_sq (by norm_num)]
  rw [h100]
  norm_num

/-- Station-keeping never makes fuel negative and never adds fuel: it either
leaves the fuel untouched or replaces it by `max 0 (fuel - 0.01)`. -/
theorem station_keeping_fuel_bounds (ship : Ship) (h0 : 0 ≤ ship.fuel) :
    0 ≤ (station_keeping_step ship).fuel ∧
      (station_keeping_step ship).fuel ≤ ship.fuel := by
  simp only [station_keeping_step]
  split_ifs
  · exact ⟨le_max_left _ _, max_le h0 (by linarith)⟩
  · exact ⟨h0, le_rfl⟩
  · exact ⟨h0, le_rfl⟩
  · exact ⟨h0, le_rfl⟩

/-- The mission-arrival / station-keeping phase of the tick never makes fuel
negative and never adds fuel, for a ship of positive mass whose pending
mission (if any) carries a nonnegative arrival delta-v. -/
theorem mission_phase_fuel_bounds (time : ℝ) (ship : Ship)
    (h0 : 0 ≤ ship.fuel) (hmass : 0 < ship.mass)
    (hmis : ∀ m, ship.mission = some m → 0 ≤ m.delta_v2) :
    0 ≤ (mission_or_station_keeping time ship).fuel ∧
      (mission_or_station_keeping time ship).fuel ≤ ship.fuel := by
  unfold mission_or_station_keeping
  cases hsm : ship.mission with
  | none => exact station_keeping_fuel_bounds ship h0
  | some m =>
    dsimp only
    split_ifs with htype htime hwin hfuel
    · have hreq : 0 ≤ calculate_fuel_consumption m.delta_v2 ship.stype ship.mass :=
        fuel_consumption_nonneg m.delta_v2 ship.stype ship.mass (hmis m hsm) hmass
      exact ⟨by dsimp only; linarith, by dsimp only; linarith⟩
    · exact ⟨h0, le_rfl⟩
    · exact ⟨h0, le_rfl⟩
    · exact ⟨h0, le_rfl⟩
    · exact station_keeping_fuel_bounds ship h0

/-- The first burn's delta-v reported by `calculate_hohmann_transfer` is an
absolute value, hence nonnegative. -/
theorem hohmann_delta_v1_nonneg (r1 r2 M : ℝ) :
    0 ≤ (calculate_hohmann_transfer r1 r2 M).delta_v1 :=
  abs_nonneg _

/-- A nonpositive fuel consumption for a nonnegative delta-v on a ship of
positive mass forces the delta-v to be zero. -/
theorem fuel_consumption_nonpos_imp (delta_v : ℝ) (ship_type : String)
    (ship_mass : ℝ) (hm : 0 < ship_mass) (hdv : 0 ≤ delta_v)
    (h : calculate_fuel_consumption delta_v ship_type ship_mass ≤ 0) :
    delta_v = 0 := by
  have hev : 0 < exhaust_velocity ship_type := exhaust_velocity_pos ship_type
  unfold calculate_fuel_consumption at h
  have hden : (0 : ℝ) < ship_mass * 0.3 := by linarith
  have hnum : ship_mass * 0.7 * Real.exp (delta_v / exhaust_velocity ship_type) -
      ship_mass * 0.7 ≤ 0 := by
    by_contra hcon
    push_neg at hcon
    have : 0 < (ship_mass * 0.7 * Real.exp (delta_v / exhaust_velocity ship_type) -
        ship_mass * 0.7) / (ship_mass * 0.3) * 100 := by positivity
    linarith
  have hexp : Real.exp (delta_v / exhaust_velocity ship_type) ≤ 1 := by
    have hdry : (0 : ℝ) < ship_mass * 0.7 := by linarith
    nlinarith
  have hle : delta_v / exhaust_velocity ship_type ≤ 0 := Real.exp_le_one_iff.mp hexp
  have : delta_v ≤ 0 := by
    by_contra hcon
    push_neg at hcon
    have : 0 < delta_v / exhaust_velocity ship_type := div_pos hcon hev
    linarith
  linarith

/-- C7: fuel stays within `[0, 100]` and never increases, across one tick of
the per-ship update (arrival burn, station-keeping, gravity integration) and
across any executed transfer command, for every ship with fuel in `[0, 100]`,
positive mass, and (as established by `execute_transfer`, the only mission
creator) a nonnegative arrival delta-v on any pending mission: station-keeping
clamps at 0, and each burn consumes fuel only when the required amount does
not exceed the available amount. -/
theorem c7_fuel_invariant (ship : Ship)
    (h0 : 0 ≤ ship.fuel) (h100 : ship.fuel ≤ 100) (hmass : 0 < ship.mass)
    (hmis : ∀ m, ship.mission = some m → 0 ≤ m.delta_v2) :
    (∀ time game_dt bodies,
      0 ≤ (update_ship time game_dt bodies ship).fuel ∧
      (update_ship time game_dt bodies ship).fuel ≤ ship.fuel ∧
      (update_ship time game_dt bodies ship).fuel ≤ 100) ∧
    (∀ dest_name dest_position t,
      0 ≤ (execute_transfer ship dest_name dest_position t).ship.fuel ∧
      (execute_transfer ship dest_name dest_position t).ship.fuel ≤ ship.fuel ∧
      (execute_transfer ship dest_name dest_position t).ship.fuel ≤ 100) := by
  constructor
  · intro time game_dt bodies
    have hfuel : (update_ship time game_dt bodies ship).fuel =
        (mission_or_station_keeping time ship).fuel := rfl
    obtain ⟨hlo, hhi⟩ := mission_phase_fuel_bounds time ship h0 hmass hmis
    exact ⟨hfuel ▸ hlo, hfuel ▸ hhi, by rw [hfuel]; linarith⟩
  · intro dest_name dest_position t
    have hreq : 0 ≤ calculate_fuel_consumption
        (calculate_hohmann_transfer
          (Real.sqrt (ship.position.1 ^ 2 + ship.position.2 ^ 2) / AU)
          (Real.sqrt (dest_position.1 ^ 2 + dest_position.2 ^ 2) / AU)
          SUN_MASS).delta_v1 ship.stype ship.mass :=
      fuel_consumption_nonneg _ ship.stype ship.mass
        (hohmann_delta_v1_nonneg _ _ _) hmass
    have hfeq : (execute_transfer ship dest_name dest_position t).ship.fuel =
        (if calculate_fuel_consumption
            (calculate_hohmann_transfer
              (Real.sqrt (ship.position.1 ^ 2 + ship.position.2 ^ 2) / AU)
              (Real.sqrt (dest_position.1 ^ 2 + dest_position.2 ^ 2) / AU)
              SUN_MASS).delta_v1 ship.stype ship.mass > ship.fuel then ship.fuel
          else ship.fuel - calculate_fuel_consumption
            (calculate_hohmann_transfer
              (Real.sqrt (ship.position.1 ^ 2 + ship.position.2 ^ 2) / AU)
              (Real.sqrt (dest_position.1 ^ 2 + dest_position.2 ^ 2) / AU)
              SUN_MASS).delta_v1 ship.stype ship.mass) := by
      simp only [execute_transfer]
      split_ifs <;> rfl
    rw [hfeq]
    split_ifs with hgt
    · exact ⟨h0, le_rfl, h100⟩
    · push_neg at hgt
      exact ⟨by linarith, by linarith, by linarith⟩

/-- Witness for C7 at a fully fuelled shuttle of mass 5 with no mission. -/
theorem c7_fuel_invariant_witness :
    (∀ time game_dt bodies,
      0 ≤ (update_ship time game_dt bodies
        (Ship.mk "UNSS Explorer" "SHUTTLE" "EARTH" (100, 0) (0, 31) 5 100 5
          none none none)).fuel ∧
      (update_ship time game_dt bodies
        (Ship.mk "UNSS Explorer" "SHUTTLE" "EARTH" (100, 0) (0, 31) 5 100 5
          none none none)).fuel ≤
        (Ship.mk "UNSS Explorer" "SHUTTLE" "EARTH" (100, 0) (0, 31) 5 100 5
          none none none).fuel ∧
      (update_ship time game_dt bodies
        (Ship.mk "UNSS Explorer" "SHUTTLE" "EARTH" (100, 0) (0, 31) 5 100 5
          none none none)).fuel ≤ 100) ∧
    (∀ dest_name dest_position t,
      0 ≤ (execute_transfer
        (Ship.mk "UNSS Explorer" "SHUTTLE" "EARTH" (100, 0) (0, 31) 5 100 5
          none none none) dest_name dest_position t).ship.fuel ∧
      (execute_transfer
        (Ship.mk "UNSS Explorer" "SHUTTLE" "EARTH" (100, 0) (0, 31) 5 100 5
          none none none) dest_name dest_position t).ship.fuel ≤
        (Ship.mk "UNSS Explorer" "SHUTTLE" "EARTH" (100, 0) (0, 31) 5 100 5
          none none none).fuel ∧
      (execute_transfer
        (Ship.mk "UNSS Explorer" "SHUTTLE" "EARTH" (100, 0) (0, 31) 5 100 5
          none none none) dest_name dest_position t).ship.fuel ≤ 100) :=
  c7_fuel_invariant
    (Ship.mk "UNSS Explorer" "SHUTTLE" "EARTH" (100, 0) (0, 31) 5 100 5
      none none none)
    (by norm_num) (by norm_num) (by norm_num)
    (by intro m hm; exact Option.noConfusion hm)

/-- C8: if the fuel required for the first burn of a commanded Hohmann
transfer exceeds the ship's available fuel, `execute_transfer` changes no
state at all — the returned ship is the input ship (same fuel, velocity,
trajectory and mission) and no transfer record is appended; and a ship with
0% fuel takes zero velocity change from any commanded burn (either the
command aborts, or the first burn's delta-v is exactly zero). -/
theorem c8_infeasible_transfer_changes_nothing (ship : Ship) (dest_name : String)
    (dest_position : ℝ × ℝ) (t : ℝ) (hmass : 0 < ship.mass) :
    (first_burn_fuel_required ship dest_position > ship.fuel →
      execute_transfer ship dest_name dest_position t =
        ExecResult.mk ship none false) ∧
    (ship.fuel = 0 →
      (execute_transfer ship dest_name dest_position t).ship.velocity =
        ship.velocity) := by
  constructor
  · intro habort
    unfold first_burn_fuel_required at habort
    simp only [execute_transfer]
    rw [if_pos habort]
  · intro hzero
    by_cases habort : first_burn_fuel_required ship dest_position > ship.fuel
    · have hres : execute_transfer ship dest_name dest_position t =
          ExecResult.mk ship none false := by
        unfold first_burn_fuel_required at habort
        simp only [execute_transfer]
        rw [if_pos habort]
      rw [hres]
    · push_neg at habort
      unfold first_burn_fuel_required at habort
      rw [hzero] at habort
      have hdv0 : (calculate_hohmann_transfer
          (Real.sqrt (ship.position.1 ^ 2 + ship.position.2 ^ 2) / AU)
          (Real.sqrt (dest_position.1 ^ 2 + dest_position.2 ^ 2) / AU)
          SUN_MASS).delta_v1 = 0 :=
        fuel_consumption_nonpos_imp _ ship.stype ship.mass hmass
          (hohmann_delta_v1_nonneg _ _ _) habort
      simp only [execute_transfer]
      rw [if_neg (by rw [hzero]; push_neg; exact habort)]
      dsimp only
      rw [hdv0]
      split_ifs <;> simp

/-- Witness for C8 at a shuttle of mass 5 with 0% fuel. -/
theorem c8_infeasible_transfer_changes_nothing_witness :
    (first_burn_fuel_required
        (Ship.mk "UNSS Explorer" "SHUTTLE" "EARTH" (100, 0) (0, 31) 5 0 5
          none none none) (250, 0) >
      (Ship.mk "UNSS Explorer" "SHUTTLE" "EARTH" (100, 0) (0, 31) 5 0 5
        none none none).fuel →
      execute_transfer
        (Ship.mk "UNSS Explorer" "SHUTTLE" "EARTH" (100, 0) (0, 31) 5 0 5
          none none none) "MARS" (250, 0) 0 =
        ExecResult.mk
          (Ship.mk "UNSS Explorer" "SHUTTLE" "EARTH" (100, 0) (0, 31) 5 0 5
            none none none) none false) ∧
    ((Ship.mk "UNSS Explorer" "SHUTTLE" "EARTH" (100, 0) (0, 31) 5 0 5
        none none none).fuel = 0 →
      (execute_transfer
        (Ship.mk "UNSS Explorer" "SHUTTLE" "EARTH" (100, 0) (0, 31) 5 0 5
          none none none) "MARS" (250, 0) 0).ship.velocity =
        (Ship.mk "UNSS Explorer" "SHUTTLE" "EARTH" (100, 0) (0, 31) 5 0 5
          none none none).velocity) :=
  c8_infeasible_transfer_changes_nothing
    (Ship.mk "UNSS Explorer" "SHUTTLE" "EARTH" (100, 0) (0, 31) 5 0 5
      none none none) "MARS" (250, 0) 0 (by norm_num)

end SolarDominion
